import Mathlib

/-!
Verification of the RepuestosApp backend (`backend/app/main.py`).

The SQLite database state is modelled as a list of catalog rows
(table `repuestos`) together with the `'oem'` row of table `secuencias`
(`none` when the row is missing).  The HTTP handlers `create_product` and
`update_product`, the sequence generator `generate_oem`, and the external
ledger client `create_product_in_contabilium` are translated as pure
functions over that state; Python exceptions become `Except` errors, and
the outcome of the external network call is an explicit parameter.
-/

namespace RepuestosApp

/-- JSON scalar as it may appear in the `"id"` field of the external
ledger's response body. -/
inductive JsonVal where
  | jnull : JsonVal
  | jstr : String → JsonVal
  | jnum : Int → JsonVal
  | jbool : Bool → JsonVal
deriving Repr, DecidableEq

/-- Python truthiness of a JSON scalar (`if cont_id:`). -/
def JsonVal.truthy : JsonVal → Bool
  | .jnull => false
  | .jstr s => !(s == "")
  | .jnum n => !(n == 0)
  | .jbool b => b

/-- Python truthiness of an `Optional[str]`: `None` and `""` are falsy
(`if not product.ean`, `if not email or not api_key`). -/
def pyTruthyStr : Option String → Bool
  | none => false
  | some s => !(s == "")

/-- Python truthiness of an `Optional` JSON scalar (`if cont_id:`). -/
def pyTruthyJson : Option JsonVal → Bool
  | none => false
  | some v => v.truthy

/-- Big-endian decimal digits of `n`, peeling one digit per unit of
fuel (any fuel above `n` is enough, since `n / 10 < n`). -/
def digitsGo : Nat → Nat → List Char
  | 0, _ => []
  | fuel + 1, n =>
      if n < 10 then [Nat.digitChar n]
      else digitsGo fuel (n / 10) ++ [Nat.digitChar (n % 10)]

/-- Python `str` on a natural number: big-endian decimal digit characters. -/
def natToDigitChars (n : Nat) : List Char := digitsGo (n + 1) n

/-- Python `str(n)` for a nonnegative integer `n`. -/
def pyStr (n : Nat) : String := ⟨natToDigitChars n⟩

/-- Python `str.zfill(w)`: left-pad with `'0'` to width `w`
(never truncates; our inputs carry no sign). -/
def zfill (s : String) (w : Nat) : String :=
  if s.length ≥ w then s
  else ⟨List.replicate (w - s.length) '0' ++ s.data⟩

/-- A row of the `repuestos` table.  `precio` is SQLite `REAL`, modelled
as a rational; `id_contabilium` keeps the raw JSON scalar stored by
the sync step (`NULL` when never synced). -/
structure Row where
  ean : String
  oem : String
  descripcion : String
  precio : Rat
  stock : Int
  id_contabilium : Option JsonVal
deriving Repr, DecidableEq

/-- Database state: the `repuestos` table and the `ultimo_valor` of the
`'oem'` row of `secuencias` (`none` when that row is absent). -/
structure DB where
  repuestos : List Row
  secuencias : Option Nat
deriving Repr, DecidableEq

/-- Errors a handler can raise: `HTTPException(status_code, detail)`,
a `RuntimeError`, or an uncaught `sqlite3.IntegrityError`. -/
inductive AppError where
  | http : Nat → String → AppError
  | runtime : String → AppError
  | integrity : String → AppError
deriving Repr, DecidableEq

/-- Request body of `POST /api/productos` (`ProductCreate`). -/
structure ProductCreate where
  descripcion : String
  precio : Rat
  stock : Int
  ean : Option String
deriving Repr, DecidableEq

/-- Request body of `PATCH /api/productos/{ean}` (`ProductUpdate`). -/
structure ProductUpdate where
  descripcion : Option String
  precio : Option Rat
  stock : Option Int
deriving Repr, DecidableEq

/-- Response model (`ProductOut`). -/
structure ProductOut where
  ean : String
  oem : String
  descripcion : String
  precio : Rat
  stock : Int
  id_contabilium : Option JsonVal
deriving Repr, DecidableEq

/-- `generate_oem`: increments `ultimo_valor` of the `'oem'` sequence row
and returns the new value as a zero-padded 8-character string; raises
`RuntimeError` when the row is missing (the `UPDATE` then matched no row
and the `SELECT` returned nothing). -/
def generate_oem (db : DB) : Except AppError (DB × String) :=
  match db.secuencias with
  | none => .error (.runtime ("Secuencia OEM no inicializada"))
  | some v =>
      .ok ({ db with secuencias := some (v + 1) }, zfill (pyStr (v + 1)) 8)

/-- The `INSERT INTO repuestos` statement: SQLite enforces the schema's
`ean TEXT PRIMARY KEY` and `oem TEXT UNIQUE` constraints declared in
`init_db`, raising `sqlite3.IntegrityError` on a violation. -/
def insertRow (db : DB) (r : Row) : Except AppError DB :=
  if db.repuestos.any (fun x => x.ean == r.ean) then
    .error (.integrity ("UNIQUE constraint failed: repuestos.ean"))
  else if db.repuestos.any (fun x => x.oem == r.oem) then
    .error (.integrity ("UNIQUE constraint failed: repuestos.oem"))
  else
    .ok { db with repuestos := db.repuestos ++ [r] }

/-- Outcome of the HTTP request to the external ledger: an exception
while connecting / sending / parsing, or a response with a status code
and the (optional) `"id"` field of its JSON body. -/
inductive HttpResult where
  | exn : String → HttpResult
  | resp : Nat → Option JsonVal → HttpResult
deriving Repr, DecidableEq

/-- `create_product_in_contabilium`: no-op without credentials; otherwise
posts the payload, `raise_for_status` rejects any non-2xx status, and
`data.get("id")` is returned.  Every exception is caught and turned
into `None` — the function never raises. -/
def create_product_in_contabilium (email apikey : Option String)
    (net : HttpResult) : Option JsonVal :=
  if !(pyTruthyStr email) || !(pyTruthyStr apikey) then none
  else
    match net with
    | .exn _ => none
    | .resp status idField =>
        if 200 ≤ status ∧ status < 300 then idField else none

/-- `update_product_in_contabilium`: fire-and-forget `PATCH`; returns
nothing and swallows every exception, so it has no observable effect
on the handler's state. -/
def update_product_in_contabilium (_email _apikey : Option String)
    (_net : HttpResult) : Unit := ()

/-- `POST /api/productos` (`create_product`).  `email`/`apikey` are the
`CONTABILIUM_EMAIL` / `CONTABILIUM_APIKEY` environment values and `net`
the outcome of the external HTTP call.  Returns the committed database
and the response body, or the raised error (an error commits nothing). -/
def create_product (db : DB) (product : ProductCreate)
    (email apikey : Option String) (net : HttpResult) :
    Except AppError (DB × ProductOut) :=
  -- `if not product.ean:` … `else:` duplicate check, then `generate_oem`;
  -- a raised exception propagates (modelled by the `.error` branches).
  let gen : Except AppError (DB × String × String) :=
    if !(pyTruthyStr product.ean) then
      match generate_oem db with
      | .error e => .error e
      | .ok (db1, code) => .ok (db1, code, code)
    else
      if db.repuestos.any (fun x => x.ean == product.ean.getD ("")) then
        .error (.http 400
          ("El producto con EAN " ++ product.ean.getD ("") ++ " ya existe"))
      else
        match generate_oem db with
        | .error e => .error e
        | .ok (db1, code) => .ok (db1, code, product.ean.getD (""))
  match gen with
  | .error e => .error e
  | .ok (db1, oem_code, ean) =>
    match insertRow db1
      { ean := ean, oem := oem_code, descripcion := product.descripcion,
        precio := product.precio, stock := product.stock,
        id_contabilium := none } with
    | .error e => .error e
    | .ok db2 =>
      let new_product : ProductOut :=
        { ean := ean, oem := oem_code, descripcion := product.descripcion,
          precio := product.precio, stock := product.stock,
          id_contabilium := none }
      let cont_id := create_product_in_contabilium email apikey net
      if pyTruthyJson cont_id then
        let db3 : DB :=
          { db2 with repuestos := db2.repuestos.map (fun x =>
              if x.ean == ean then { x with id_contabilium := cont_id }
              else x) }
        .ok (db3, { new_product with id_contabilium := cont_id })
      else
        .ok (db2, new_product)

/-- Apply a `ProductUpdate` to a row: only supplied fields change
(the generated `UPDATE ... SET` lists exactly the supplied fields). -/
def applyUpdate (r : Row) (u : ProductUpdate) : Row :=
  { r with descripcion := u.descripcion.getD r.descripcion,
           precio := u.precio.getD r.precio,
           stock := u.stock.getD r.stock }

/-- `PATCH /api/productos/{ean}` (`update_product`): 404 when the row is
absent; otherwise updates the supplied fields (skipping the write when
none is supplied), fires the best-effort external patch, re-reads the
row and returns it. -/
def update_product (db : DB) (ean : String) (update : ProductUpdate)
    (email apikey : Option String) (net : HttpResult) :
    Except AppError (DB × ProductOut) :=
  match db.repuestos.find? (fun x => x.ean == ean) with
  | none => .error (.http 404 ("No existe el producto " ++ ean))
  | some _ =>
    let hasFields := update.descripcion.isSome || update.precio.isSome
        || update.stock.isSome
    let db1 : DB :=
      if hasFields then
        { db with repuestos := db.repuestos.map (fun x =>
            if x.ean == ean then applyUpdate x update else x) }
      else db
    let _ := update_product_in_contabilium email apikey net
    match db1.repuestos.find? (fun x => x.ean == ean) with
    | none => .error (.runtime ("row vanished"))
    | some updated_row =>
      .ok (db1,
        { ean := updated_row.ean, oem := updated_row.oem,
          descripcion := updated_row.descripcion,
          precio := updated_row.precio, stock := updated_row.stock,
          id_contabilium := updated_row.id_contabilium })

/-- A request handled by the service: a `POST /api/productos` with its
environment and external-call outcome, or a `PATCH /api/productos/{ean}`. -/
inductive Op where
  | create : ProductCreate → Option String → Option String → HttpResult → Op
  | update : String → ProductUpdate → Option String → Option String →
      HttpResult → Op
deriving Repr

/-- Run one request against the database.  On an error the connection is
closed (or garbage-collected) without `commit`, so SQLite rolls the
transaction back and the state is unchanged. -/
def runOp (db : DB) : Op → DB × Except AppError ProductOut
  | .create p email apikey net =>
      match create_product db p email apikey net with
      | .ok (db', out) => (db', .ok out)
      | .error e => (db, .error e)
  | .update ean u email apikey net =>
      match update_product db ean u email apikey net with
      | .ok (db', out) => (db', .ok out)
      | .error e => (db, .error e)

/-- Run a sequence of requests, returning each request's outcome. -/
def runAll (db : DB) : List Op → List (Except AppError ProductOut)
  | [] => []
  | op :: ops =>
      let (db', r) := runOp db op
      r :: runAll db' ops

/-- Numeric value of a decimal digit character. -/
def chVal (c : Char) : Nat := c.toNat - 48

/-- Value of a big-endian list of decimal digit characters. -/
def lval (l : List Char) : Nat := l.foldl (fun a c => a * 10 + chVal c) 0

/-- Integer value encoded by a decimal string such as an `oem` code. -/
def strVal (s : String) : Nat := lval s.data

/-- The ten decimal digit characters. -/
def digitChars : List Char :=
  ['0', '1', '2', '3', '4', '5', '6', '7', '8', '9']

/-! ### Decimal strings: values, bounds and lexicographic order -/

lemma foldl_lval (l : List Char) (acc : Nat) :
    l.foldl (fun a c => a * 10 + chVal c) acc = acc * 10 ^ l.length + lval l := by
  induction l generalizing acc with
  | nil => simp [lval]
  | cons c l ih =>
      simp only [List.foldl_cons, List.length_cons, lval]
      rw [ih (acc * 10 + chVal c), ih (0 * 10 + chVal c)]
      ring

lemma lval_cons (c : Char) (l : List Char) :
    lval (c :: l) = chVal c * 10 ^ l.length + lval l := by
  have h : lval (c :: l)
      = List.foldl (fun a c => a * 10 + chVal c) (0 * 10 + chVal c) l := rfl
  rw [h, foldl_lval]
  ring

lemma lval_append (l l' : List Char) :
    lval (l ++ l') = lval l * 10 ^ l'.length + lval l' := by
  have h : lval (l ++ l')
      = List.foldl (fun a c => a * 10 + chVal c) (lval l) l' := by
    show List.foldl _ 0 (l ++ l') = _
    rw [List.foldl_append]
    rfl
  rw [h, foldl_lval]

lemma lval_replicate_zero (k : Nat) : lval (List.replicate k '0') = 0 := by
  induction k with
  | zero => rfl
  | succ k ih =>
      rw [List.replicate_succ, lval_cons, ih]
      simp [chVal]

lemma chVal_lt_ten {c : Char} (h : c ∈ digitChars) : chVal c < 10 := by
  revert c
  decide

lemma lval_lt_pow {l : List Char} (h : ∀ c ∈ l, c ∈ digitChars) :
    lval l < 10 ^ l.length := by
  induction l with
  | nil => simp [lval]
  | cons c l ih =>
      rw [lval_cons, List.length_cons, pow_succ]
      have hc : chVal c < 10 := chVal_lt_ten (h c (by simp))
      have hl : lval l < 10 ^ l.length := ih (fun x hx => h x (by simp [hx]))
      calc chVal c * 10 ^ l.length + lval l
          < chVal c * 10 ^ l.length + 10 ^ l.length := by omega
        _ = (chVal c + 1) * 10 ^ l.length := by ring
        _ ≤ 10 ^ l.length * 10 := by
            rw [mul_comm (10 ^ l.length) 10]
            exact Nat.mul_le_mul_right _ (by omega)

lemma chVal_digitChar {d : Nat} (h : d < 10) : chVal (Nat.digitChar d) = d := by
  revert d
  decide

lemma digitChar_mem {d : Nat} (h : d < 10) : Nat.digitChar d ∈ digitChars := by
  revert d
  decide

lemma digitsGo_fuel : ∀ (n fuel : Nat), n < fuel →
    digitsGo fuel n = digitsGo (n + 1) n := by
  intro n
  induction n using Nat.strong_induction_on with
  | _ n ih =>
    intro fuel h
    cases fuel with
    | zero => omega
    | succ f =>
      by_cases h10 : n < 10
      · simp [digitsGo, h10]
      · have hdiv' : n / 10 < n := Nat.div_lt_self (by omega) (by omega)
        have e1 : digitsGo (f + 1) n
            = digitsGo f (n / 10) ++ [Nat.digitChar (n % 10)] := by
          simp [digitsGo, h10]
        have e2 : digitsGo (n + 1) n
            = digitsGo n (n / 10) ++ [Nat.digitChar (n % 10)] := by
          simp [digitsGo, h10]
        rw [e1, e2, ih (n / 10) hdiv' f (by omega),
          ih (n / 10) hdiv' n (by omega)]

lemma natToDigitChars_mem (n : Nat) :
    ∀ c ∈ natToDigitChars n, c ∈ digitChars := by
  induction n using Nat.strong_induction_on with
  | _ n ih =>
    rw [natToDigitChars, digitsGo]
    split
    · intro c hc
      simp only [List.mem_singleton] at hc
      subst hc
      exact digitChar_mem (by omega)
    · intro c hc
      have hdiv : n / 10 < n := Nat.div_lt_self (by omega) (by omega)
      rw [digitsGo_fuel (n / 10) n (by omega)] at hc
      rcases List.mem_append.mp hc with h1 | h2
      · exact ih (n / 10) hdiv c h1
      · simp only [List.mem_singleton] at h2
        subst h2
        exact digitChar_mem (Nat.mod_lt _ (by omega))

lemma lval_natToDigitChars (n : Nat) : lval (natToDigitChars n) = n := by
  induction n using Nat.strong_induction_on with
  | _ n ih =>
    rw [natToDigitChars, digitsGo]
    split
    · rw [show [Nat.digitChar n] = Nat.digitChar n :: [] from rfl, lval_cons]
      simp [lval, chVal_digitChar (by omega : n < 10)]
    · have hdiv : n / 10 < n := Nat.div_lt_self (by omega) (by omega)
      rw [digitsGo_fuel (n / 10) n (by omega)]
      rw [lval_append]
      rw [show digitsGo (n / 10 + 1) (n / 10) = natToDigitChars (n / 10)
        from rfl, ih (n / 10) hdiv]
      rw [show [Nat.digitChar (n % 10)] = Nat.digitChar (n % 10) :: [] from rfl,
        lval_cons]
      simp [lval, chVal_digitChar (Nat.mod_lt n (by omega) : n % 10 < 10)]
      omega

lemma natToDigitChars_length_le {n k : Nat} (hk : 1 ≤ k) (h : n < 10 ^ k) :
    (natToDigitChars n).length ≤ k := by
  induction n using Nat.strong_induction_on generalizing k with
  | _ n ih =>
    rw [natToDigitChars, digitsGo]
    split
    · simpa using hk
    · rename_i hn
      have hdiv0 : n / 10 < n := Nat.div_lt_self (by omega) (by omega)
      rw [digitsGo_fuel (n / 10) n (by omega)]
      simp only [List.length_append, List.length_singleton]
      have hk2 : 2 ≤ k := by
        by_contra hc
        have : k = 1 := by omega
        subst this
        simp at h
        omega
      have hdiv : n / 10 < 10 ^ (k - 1) := by
        rw [Nat.div_lt_iff_lt_mul (by omega : 0 < 10)]
        calc n < 10 ^ k := h
          _ = 10 ^ (k - 1) * 10 := by
              rw [← pow_succ]
              congr 1
              omega
      have := ih (n / 10) hdiv0 (k := k - 1) (by omega) hdiv
      rw [show digitsGo (n / 10 + 1) (n / 10) = natToDigitChars (n / 10)
        from rfl] at *
      omega

lemma lt_pow_length (n : Nat) : n < 10 ^ (natToDigitChars n).length := by
  have := lval_lt_pow (natToDigitChars_mem n)
  rwa [lval_natToDigitChars] at this

/-- Lexicographic comparison agrees with numeric comparison on
equal-length strings of decimal digit characters. -/
lemma digits_lex : ∀ (a b : List Char), a.length = b.length →
    (∀ c ∈ a, c ∈ digitChars) → (∀ c ∈ b, c ∈ digitChars) →
    lval a < lval b → List.lt a b := by
  intro a
  induction a with
  | nil =>
      intro b hlen _ _ hv
      cases b with
      | nil => simp [lval] at hv
      | cons y ys => simp at hlen
  | cons x xs ih =>
      intro b hlen ha hb hv
      cases b with
      | nil => simp at hlen
      | cons y ys =>
        have hlen' : xs.length = ys.length := by simpa using hlen
        have hx : x ∈ digitChars := ha x (by simp)
        have hy : y ∈ digitChars := hb y (by simp)
        have hxs : ∀ c ∈ xs, c ∈ digitChars := fun c hc => ha c (by simp [hc])
        have hys : ∀ c ∈ ys, c ∈ digitChars := fun c hc => hb c (by simp [hc])
        rw [lval_cons, lval_cons, hlen'] at hv
        rcases Nat.lt_trichotomy (chVal x) (chVal y) with hlt | heq | hgt
        · have hxy : x < y := by
            have : ∀ u ∈ digitChars, ∀ v ∈ digitChars,
                chVal u < chVal v → u < v := by decide
            exact this x hx y hy hlt
          exact List.lt.head _ _ hxy
        · have hxy : x = y := by
            have : ∀ u ∈ digitChars, ∀ v ∈ digitChars,
                chVal u = chVal v → u = v := by decide
            exact this x hx y hy heq
          subst hxy
          have hirr : ¬x < x := by
            have : ∀ u ∈ digitChars, ¬u < u := by decide
            exact this x hx
          refine List.lt.tail hirr hirr ?_
          exact ih ys hlen' hxs hys (by omega)
        · exfalso
          have hys_lt : lval ys < 10 ^ ys.length := lval_lt_pow hys
          have : chVal y * 10 ^ ys.length + 10 ^ ys.length
              ≤ chVal x * 10 ^ ys.length := by
            calc chVal y * 10 ^ ys.length + 10 ^ ys.length
                = (chVal y + 1) * 10 ^ ys.length := by ring
              _ ≤ chVal x * 10 ^ ys.length :=
                  Nat.mul_le_mul_right _ (by omega)
          omega

/-! ### `zfill` and the padded codes -/

lemma zfill_data (s : String) (w : Nat) :
    (zfill s w).data = List.replicate (w - s.length) '0' ++ s.data := by
  rw [zfill]
  split
  · rename_i h
    rw [show w - s.length = 0 from by omega]
    simp
  · rfl

lemma zfill_length (s : String) (w : Nat) :
    (zfill s w).length = max w s.length := by
  have h := zfill_data s w
  have : (zfill s w).length = (zfill s w).data.length := rfl
  rw [this, h]
  simp only [List.length_append, List.length_replicate]
  have : s.data.length = s.length := rfl
  omega

lemma pyStr_length (n : Nat) : (pyStr n).length = (natToDigitChars n).length := rfl

lemma strVal_zfill_pyStr (n w : Nat) : strVal (zfill (pyStr n) w) = n := by
  rw [strVal, zfill_data, lval_append, lval_replicate_zero]
  simp only [zero_mul, zero_add]
  exact lval_natToDigitChars n

lemma zfill_pyStr_mem (n w : Nat) :
    ∀ c ∈ (zfill (pyStr n) w).data, c ∈ digitChars := by
  rw [zfill_data]
  intro c hc
  rcases List.mem_append.mp hc with h1 | h2
  · have := List.eq_of_mem_replicate h1
    subst this
    decide
  · exact natToDigitChars_mem n c h2

lemma zfill_pyStr_length_eight {n : Nat} (h : n < 10 ^ 8) :
    (zfill (pyStr n) 8).length = 8 := by
  rw [zfill_length, pyStr_length]
  have := natToDigitChars_length_le (k := 8) (by omega) h
  omega

/-- Strictly smaller values give lexicographically smaller padded codes,
as long as both values fit in 8 digits. -/
lemma pad_lt_pad {m n : Nat} (hmn : m < n) (hn : n < 10 ^ 8) :
    zfill (pyStr m) 8 < zfill (pyStr n) 8 := by
  rw [String.lt_iff_toList_lt]
  show (zfill (pyStr m) 8).data < (zfill (pyStr n) 8).data
  have hm : m < 10 ^ 8 := lt_of_lt_of_le hmn (le_of_lt hn)
  have hlen : (zfill (pyStr m) 8).data.length = (zfill (pyStr n) 8).data.length := by
    have h1 : (zfill (pyStr m) 8).data.length = (zfill (pyStr m) 8).length := rfl
    have h2 : (zfill (pyStr n) 8).data.length = (zfill (pyStr n) 8).length := rfl
    rw [h1, h2, zfill_pyStr_length_eight hm, zfill_pyStr_length_eight hn]
  have hv : lval (zfill (pyStr m) 8).data < lval (zfill (pyStr n) 8).data := by
    have e1 : lval (zfill (pyStr m) 8).data = m := strVal_zfill_pyStr m 8
    have e2 : lval (zfill (pyStr n) 8).data = n := strVal_zfill_pyStr n 8
    omega
  exact (List.lt_iff_lex_lt _ _).mp
    (digits_lex _ _ hlen (zfill_pyStr_mem m 8) (zfill_pyStr_mem n 8) hv)

/-! ### Structural lemmas about the handlers -/

/-- Counter value visible in a database state (`0` when the row is absent;
only used for bookkeeping in the trace lemmas). -/
def seqNat (db : DB) : Nat := db.secuencias.getD 0

lemma insertRow_ok {db : DB} {r : Row} {db' : DB}
    (h : insertRow db r = .ok db') :
    db' = { db with repuestos := db.repuestos ++ [r] } := by
  rw [insertRow] at h
  split at h
  · exact absurd h (by simp)
  · split at h
    · exact absurd h (by simp)
    · exact (Except.ok.injEq _ _ ▸ h).symm ▸ rfl

lemma create_ok_spec {db : DB} {p : ProductCreate} {email apikey : Option String}
    {net : HttpResult} {db' : DB} {out : ProductOut}
    (h : create_product db p email apikey net = .ok (db', out)) :
    ∃ v, db.secuencias = some v ∧ db'.secuencias = some (v + 1) ∧
      out.oem = zfill (pyStr (v + 1)) 8 := by
  rw [create_product] at h
  cases hseq : db.secuencias with
  | none =>
      exfalso
      simp only [generate_oem, hseq] at h
      split at h
      · simp at h
      · rename_i heq
        split at heq
        · simp at heq
        · split at heq <;> simp at heq
  | some v =>
      refine ⟨v, rfl, ?_⟩
      simp only [generate_oem, hseq] at h
      split at h
      · simp at h
      · rename_i db1 code ean heq
        have hda : db1 = { db with secuencias := some (v + 1) } ∧
            code = zfill (pyStr (v + 1)) 8 := by
          split at heq
          · injection heq with h1
            injection h1 with hd h2
            injection h2 with hc he
            exact ⟨hd.symm, hc.symm⟩
          · split at heq
            · simp at heq
            · injection heq with h1
              injection h1 with hd h2
              injection h2 with hc he
              exact ⟨hd.symm, hc.symm⟩
        obtain ⟨hdb1, hcode⟩ := hda
        subst hdb1
        subst hcode
        split at h
        · simp at h
        · rename_i db2 hins
          have hdb2 := insertRow_ok hins
          split at h <;>
          · injection h with h1
            injection h1 with hd ho
            subst hd
            subst ho
            subst hdb2
            exact ⟨rfl, rfl⟩

lemma update_ok_secuencias {db : DB} {ean : String} {u : ProductUpdate}
    {email apikey : Option String} {net : HttpResult} {db' : DB}
    {out : ProductOut}
    (h : update_product db ean u email apikey net = .ok (db', out)) :
    db'.secuencias = db.secuencias := by
  rw [update_product] at h
  split at h
  · simp at h
  · dsimp only at h
    split at h
    · simp at h
    · injection h with h1
      injection h1 with hd ho
      subst hd
      split <;> rfl

/-! ### Traces of requests -/

lemma runAll_cons (db : DB) (op : Op) (ops : List Op) :
    runAll db (op :: ops) = (runOp db op).2 :: runAll (runOp db op).1 ops := rfl

lemma seqNat_le_runOp (db : DB) (op : Op) :
    seqNat db ≤ seqNat (runOp db op).1 := by
  cases op with
  | create p e k n =>
      cases hc : create_product db p e k n with
      | error err => simp [runOp, hc]
      | ok pr =>
          obtain ⟨db', out⟩ := pr
          obtain ⟨v, hv, hv', _⟩ := create_ok_spec hc
          simp [runOp, hc, seqNat, hv, hv']
  | update ean u e k n =>
      cases hc : update_product db ean u e k n with
      | error err => simp [runOp, hc]
      | ok pr =>
          obtain ⟨db', out⟩ := pr
          have := update_ok_secuencias hc
          simp [runOp, hc, seqNat, this]

lemma runOp_create_ok {db : DB} {p : ProductCreate} {e k : Option String}
    {n : HttpResult} {out : ProductOut}
    (h : (runOp db (Op.create p e k n)).2 = .ok out) :
    ∃ v, db.secuencias = some v ∧
      (runOp db (Op.create p e k n)).1.secuencias = some (v + 1) ∧
      out.oem = zfill (pyStr (v + 1)) 8 := by
  cases hc : create_product db p e k n with
  | error err => simp [runOp, hc] at h
  | ok pr =>
      obtain ⟨db', out'⟩ := pr
      have h2 : out' = out := by simpa [runOp, hc] using h
      subst h2
      obtain ⟨v, hv, hv', hoem⟩ := create_ok_spec hc
      exact ⟨v, hv, by simpa [runOp, hc] using hv', hoem⟩

/-- Every successful create in a trace returns a code strictly above the
counter value at the start of the trace. -/
lemma runAll_create_code (ops : List Op) : ∀ (db : DB) (j : Nat)
    (p : ProductCreate) (e k : Option String) (n : HttpResult)
    (out : ProductOut),
    ops.get? j = some (Op.create p e k n) →
    (runAll db ops).get? j = some (.ok out) →
    ∃ a, out.oem = zfill (pyStr a) 8 ∧ seqNat db < a := by
  induction ops with
  | nil =>
      intro db j p e k n out hop _
      simp at hop
  | cons op ops ih =>
      intro db j p e k n out hop hres
      cases j with
      | zero =>
          simp only [List.get?] at hop
          injection hop with hop
          subst hop
          rw [runAll_cons] at hres
          simp only [List.get?] at hres
          injection hres with hres
          obtain ⟨v, hv, _, hoem⟩ := runOp_create_ok hres
          exact ⟨v + 1, hoem, by simp [seqNat, hv]⟩
      | succ j =>
          simp only [List.get?] at hop
          rw [runAll_cons] at hres
          simp only [List.get?] at hres
          obtain ⟨a, ha, hlt⟩ := ih (runOp db op).1 j p e k n out hop hres
          exact ⟨a, ha, lt_of_le_of_lt (seqNat_le_runOp db op) hlt⟩

/-- Two successful creates in a trace return codes that are padded
encodings of strictly increasing integers. -/
lemma runAll_create_codes_mono (ops : List Op) : ∀ (db : DB) (i j : Nat)
    (pa : ProductCreate) (ea ka : Option String) (na : HttpResult)
    (pb : ProductCreate) (eb kb : Option String) (nb : HttpResult)
    (oa ob : ProductOut),
    i < j →
    ops.get? i = some (Op.create pa ea ka na) →
    (runAll db ops).get? i = some (.ok oa) →
    ops.get? j = some (Op.create pb eb kb nb) →
    (runAll db ops).get? j = some (.ok ob) →
    ∃ a b, oa.oem = zfill (pyStr a) 8 ∧ ob.oem = zfill (pyStr b) 8 ∧
      a < b := by
  induction ops with
  | nil =>
      intro db i j pa ea ka na pb eb kb nb oa ob _ hopa _ _ _
      simp at hopa
  | cons op ops ih =>
      intro db i j pa ea ka na pb eb kb nb oa ob hij hopa hresa hopb hresb
      cases i with
      | zero =>
          cases j with
          | zero => omega
          | succ j =>
              simp only [List.get?] at hopa hopb
              injection hopa with hopa
              subst hopa
              rw [runAll_cons] at hresa hresb
              simp only [List.get?] at hresa hresb
              injection hresa with hresa
              obtain ⟨v, hv, hv', hoem⟩ := runOp_create_ok hresa
              obtain ⟨b, hb, hlt⟩ :=
                runAll_create_code ops (runOp db (Op.create pa ea ka na)).1
                  j pb eb kb nb ob hopb hresb
              refine ⟨v + 1, b, hoem, hb, ?_⟩
              rw [seqNat, hv'] at hlt
              simpa using hlt
      | succ i =>
          cases j with
          | zero => omega
          | succ j =>
              simp only [List.get?] at hopa hopb
              rw [runAll_cons] at hresa hresb
              simp only [List.get?] at hresa hresb
              exact ih (runOp db op).1 i j pa ea ka na pb eb kb nb oa ob
                (by omega) hopa hresa hopb hresb

lemma lt_pow_of_zfill_length {n : Nat}
    (h : (zfill (pyStr n) 8).length = 8) : n < 10 ^ 8 := by
  rw [zfill_length, pyStr_length] at h
  have hlen : (natToDigitChars n).length ≤ 8 := by omega
  calc n < 10 ^ (natToDigitChars n).length := lt_pow_length n
    _ ≤ 10 ^ 8 := Nat.pow_le_pow_right (by omega) hlen

/-! ### Claim theorems -/

/-- C1: Sequence monotonicity — in any trace of requests, for every pair of
successful create operations the `internal_code` (`oem`) returned by the
later create is strictly greater than the one returned by the earlier
create, as an integer value, and lexicographically while both codes are
within 8 digits; each call to the generator increments the persisted
counter by exactly 1 before reading it. -/
theorem C1_sequence_monotonicity (db : DB) (ops : List Op) (i j : Nat)
    (pa : ProductCreate) (ea ka : Option String) (na : HttpResult)
    (pb : ProductCreate) (eb kb : Option String) (nb : HttpResult)
    (oa ob : ProductOut)
    (hij : i < j)
    (hopa : ops.get? i = some (Op.create pa ea ka na))
    (hresa : (runAll db ops).get? i = some (Except.ok oa))
    (hopb : ops.get? j = some (Op.create pb eb kb nb))
    (hresb : (runAll db ops).get? j = some (Except.ok ob)) :
    strVal oa.oem < strVal ob.oem ∧
      (oa.oem.length = 8 → ob.oem.length = 8 → oa.oem < ob.oem) := by
  obtain ⟨a, b, ha, hb, hab⟩ :=
    runAll_create_codes_mono ops db i j pa ea ka na pb eb kb nb oa ob hij
      hopa hresa hopb hresb
  refine ⟨?_, ?_⟩
  · rw [ha, hb, strVal_zfill_pyStr, strVal_zfill_pyStr]
    exact hab
  · intro h8a h8b
    rw [ha] at h8a ⊢
    rw [hb] at h8b ⊢
    exact pad_lt_pad hab (lt_pow_of_zfill_length h8b)

/-- Witness for C1: a fresh database, two consecutive creates without a
supplied `ean`, yielding codes `00000001` and `00000002`. -/
theorem C1_sequence_monotonicity_witness :
    strVal (⟨"00000001", "00000001", "Filtro", 10, 5, none⟩ :
        ProductOut).oem
      < strVal (⟨"00000002", "00000002", "Filtro", 10, 5, none⟩ :
        ProductOut).oem ∧
      ((⟨"00000001", "00000001", "Filtro", 10, 5, none⟩ :
          ProductOut).oem.length = 8 →
        (⟨"00000002", "00000002", "Filtro", 10, 5, none⟩ :
          ProductOut).oem.length = 8 →
        (⟨"00000001", "00000001", "Filtro", 10, 5, none⟩ :
            ProductOut).oem
          < (⟨"00000002", "00000002", "Filtro", 10, 5, none⟩ :
            ProductOut).oem) :=
  C1_sequence_monotonicity ⟨[], some 0⟩
    [Op.create ⟨"Filtro", 10, 5, none⟩ none none (.exn ("network down")),
     Op.create ⟨"Filtro", 10, 5, none⟩ none none (.exn ("network down"))]
    0 1
    ⟨"Filtro", 10, 5, none⟩ none none (.exn ("network down"))
    ⟨"Filtro", 10, 5, none⟩ none none (.exn ("network down"))
    ⟨"00000001", "00000001", "Filtro", 10, 5, none⟩
    ⟨"00000002", "00000002", "Filtro", 10, 5, none⟩
    (by decide) (by rfl) (by rfl) (by rfl) (by rfl)

/-- C2: a create whose caller-supplied `ean` already exists fails with the
400 duplicate error, and the driver-visible state is unchanged: no row is
inserted and the sequence counter is not incremented. -/
theorem C2_duplicate_rejected (db : DB) (p : ProductCreate)
    (email apikey : Option String) (net : HttpResult) (s : String)
    (hean : p.ean = some s) (hs : s ≠ "")
    (hdup : ∃ r ∈ db.repuestos, r.ean = s) :
    create_product db p email apikey net =
      .error (.http 400 ("El producto con EAN " ++ s ++ " ya existe")) ∧
    (runOp db (Op.create p email apikey net)).1 = db := by
  have htruthy : pyTruthyStr p.ean = true := by
    rw [hean]
    simp [pyTruthyStr, hs]
  have h1 : create_product db p email apikey net =
      .error (.http 400 ("El producto con EAN " ++ s ++ " ya existe")) := by
    rw [create_product]
    dsimp only
    rw [htruthy]
    simp [hean, hdup]
  exact ⟨h1, by simp [runOp, h1]⟩

/-- Witness for C2: the catalog already holds `ABC123`; creating it again
fails with 400 and leaves the state unchanged. -/
theorem C2_duplicate_rejected_witness :
    create_product ⟨[⟨"ABC123", "00000001", "Filtro", 10, 5, none⟩], some 1⟩
        ⟨"Bujia", 3, 7, some ("ABC123")⟩ none none (.exn ("down")) =
      .error (.http 400 ("El producto con EAN ABC123 ya existe")) ∧
    (runOp ⟨[⟨"ABC123", "00000001", "Filtro", 10, 5, none⟩], some 1⟩
        (Op.create ⟨"Bujia", 3, 7, some ("ABC123")⟩ none none (.exn ("down")))).1 =
      ⟨[⟨"ABC123", "00000001", "Filtro", 10, 5, none⟩], some 1⟩ :=
  C2_duplicate_rejected
    ⟨[⟨"ABC123", "00000001", "Filtro", 10, 5, none⟩], some 1⟩
    ⟨"Bujia", 3, 7, some ("ABC123")⟩ none none (.exn ("down")) "ABC123"
    rfl (by decide) ⟨⟨"ABC123", "00000001", "Filtro", 10, 5, none⟩,
      by decide, rfl⟩

/-- C6: an empty patch on an existing product is legal, performs no local
write (the returned state is exactly the input state), and returns the
product with all six fields as they were. -/
theorem C6_empty_patch_identity (db : DB) (ean : String)
    (email apikey : Option String) (net : HttpResult) (r : Row)
    (hfind : db.repuestos.find? (fun x => x.ean == ean) = some r) :
    update_product db ean ⟨none, none, none⟩ email apikey net =
      .ok (db, ⟨r.ean, r.oem, r.descripcion, r.precio, r.stock,
        r.id_contabilium⟩) := by
  rw [update_product]
  rw [hfind]
  simp [hfind]

/-- Witness for C6: an empty patch on `ABC123` returns the stored product
and leaves the database untouched. -/
theorem C6_empty_patch_identity_witness :
    update_product ⟨[⟨"ABC123", "00000001", "Filtro", 10, 5, none⟩], some 1⟩
        "ABC123" ⟨none, none, none⟩ none none (.exn ("down")) =
      .ok (⟨[⟨"ABC123", "00000001", "Filtro", 10, 5, none⟩], some 1⟩,
        ⟨"ABC123", "00000001", "Filtro", 10, 5, none⟩) :=
  C6_empty_patch_identity
    ⟨[⟨"ABC123", "00000001", "Filtro", 10, 5, none⟩], some 1⟩
    "ABC123" none none (.exn ("down"))
    ⟨"ABC123", "00000001", "Filtro", 10, 5, none⟩ (by decide)

lemma find?_update (l : List Row) (e : String) (u : ProductUpdate) :
    (l.map (fun x => if x.ean == e then applyUpdate x u else x)).find?
        (fun x => x.ean == e)
      = (l.find? (fun x => x.ean == e)).map
          (fun x => if x.ean == e then applyUpdate x u else x) := by
  rw [List.find?_map]
  have hp : ((fun x => x.ean == e) ∘
      fun x => if (x.ean == e) = true then applyUpdate x u else x)
      = (fun x : Row => x.ean == e) := by
    funext x
    by_cases hx : (x.ean == e) = true <;>
      simp [Function.comp, hx, applyUpdate]
  rw [hp]

/-- C3: a partial update of an existing product changes exactly the
supplied fields of that product's row; the unsupplied fields among
description/price/stock, as well as `ean`, `oem` and `id_contabilium`,
are returned unchanged, and every other row is untouched. -/
theorem C3_frame_property (db : DB) (e : String) (u : ProductUpdate)
    (email apikey : Option String) (net : HttpResult) (r : Row)
    (hfind : db.repuestos.find? (fun x => x.ean == e) = some r) :
    ∃ db', update_product db e u email apikey net =
        .ok (db',
          ⟨r.ean, r.oem, u.descripcion.getD r.descripcion,
            u.precio.getD r.precio, u.stock.getD r.stock,
            r.id_contabilium⟩) ∧
      db'.secuencias = db.secuencias ∧
      db'.repuestos = db.repuestos.map
        (fun x => if x.ean == e then applyUpdate x u else x) := by
  have hre : (r.ean == e) = true := by
    have h := List.find?_some hfind
    simpa using h
  by_cases hf : (u.descripcion.isSome || u.precio.isSome || u.stock.isSome)
      = true
  · refine ⟨⟨db.repuestos.map
        (fun x => if x.ean == e then applyUpdate x u else x),
        db.secuencias⟩, ?_, rfl, rfl⟩
    rw [update_product, hfind]
    dsimp only
    rw [hf]
    simp only [if_true]
    rw [find?_update, hfind]
    have hre' : r.ean = e := by simpa using hre
    simp [hre', applyUpdate]
  · have hd : u.descripcion = none := by
      rcases hu : u.descripcion <;> simp [hu] at hf ⊢
    have hp : u.precio = none := by
      rcases hu : u.precio <;> simp [hu] at hf ⊢
    have hst : u.stock = none := by
      rcases hu : u.stock <;> simp [hu] at hf ⊢
    have hf' : (u.descripcion.isSome || u.precio.isSome || u.stock.isSome)
        = false := by
      simp [hd, hp, hst]
    refine ⟨db, ?_, rfl, ?_⟩
    · rw [update_product, hfind]
      dsimp only
      rw [hf']
      simp only [Bool.false_eq_true, if_false]
      rw [hfind]
      simp [hd, hp, hst]
    · symm
      conv_rhs => rw [← List.map_id db.repuestos]
      apply List.map_congr_left
      intro x _
      by_cases hx : (x.ean == e) = true <;>
        simp [hx, hd, hp, hst, applyUpdate]

/-- Witness for C3: patching only `stock` on `ABC123` keeps its other
fields and leaves the second row untouched. -/
theorem C3_frame_property_witness :
    ∃ db', update_product
        ⟨[⟨"ABC123", "00000001", "Filtro", 10, 5, none⟩,
          ⟨"ZZZ", "00000002", "Otro", 7, 1, none⟩], some 2⟩
        "ABC123" ⟨none, none, some 2⟩ none none (.exn ("down")) =
        .ok (db', ⟨"ABC123", "00000001", "Filtro", 10, 2, none⟩) ∧
      db'.secuencias = some 2 ∧
      db'.repuestos = [⟨"ABC123", "00000001", "Filtro", 10, 5, none⟩,
          ⟨"ZZZ", "00000002", "Otro", 7, 1, none⟩].map
        (fun x => if x.ean == "ABC123"
          then applyUpdate x ⟨none, none, some 2⟩ else x) :=
  C3_frame_property
    ⟨[⟨"ABC123", "00000001", "Filtro", 10, 5, none⟩,
      ⟨"ZZZ", "00000002", "Otro", 7, 1, none⟩], some 2⟩
    "ABC123" ⟨none, none, some 2⟩ none none (.exn ("down"))
    ⟨"ABC123", "00000001", "Filtro", 10, 5, none⟩ (by decide)

/-- C7: with the counter at `v`, the generator returns the decimal
representation of `v + 1` left-padded with zeros to width 8, never
truncated: its parsed value is `v + 1` and its length is the maximum of 8
and the digit count; past 8 digits the raw digit string is returned. -/
theorem C7_code_formatting (db : DB) (v : Nat) (hseq : db.secuencias = some v) :
    generate_oem db =
      .ok ({ db with secuencias := some (v + 1) }, zfill (pyStr (v + 1)) 8) ∧
    strVal (zfill (pyStr (v + 1)) 8) = v + 1 ∧
    (zfill (pyStr (v + 1)) 8).length = max 8 (pyStr (v + 1)).length ∧
    ((pyStr (v + 1)).length > 8 → zfill (pyStr (v + 1)) 8 = pyStr (v + 1)) := by
  refine ⟨?_, strVal_zfill_pyStr (v + 1) 8, ?_, ?_⟩
  · rw [generate_oem, hseq]
  · rw [zfill_length]
  · intro h
    rw [zfill]
    simp [Nat.le_of_lt h]

/-- Witness for C7 at counter value 1: code `"00000002"`, and at a counter
past eight digits the raw digits come back. -/
theorem C7_code_formatting_witness :
    generate_oem ⟨[], some 1⟩ =
      .ok (⟨[], some 2⟩, zfill (pyStr 2) 8) ∧
    strVal (zfill (pyStr 2) 8) = 2 ∧
    (zfill (pyStr 2) 8).length = max 8 (pyStr 2).length ∧
    ((pyStr 2).length > 8 → zfill (pyStr 2) 8 = pyStr 2) :=
  C7_code_formatting ⟨[], some 1⟩ 1 rfl

/-- C8: the storage layer itself rejects an insert whose `oem`
(internal code) duplicates an existing row's `oem`: the schema's
`UNIQUE` constraint raises an `IntegrityError`, independently of the
sequence generator. -/
theorem C8_oem_unique_storage (db : DB) (r : Row)
    (hdup : ∃ x ∈ db.repuestos, x.oem = r.oem) :
    ∃ msg, insertRow db r = .error (.integrity msg) := by
  rw [insertRow]
  by_cases he : db.repuestos.any (fun x => x.ean == r.ean) = true
  · exact ⟨_, by rw [if_pos he]⟩
  · have ho : db.repuestos.any (fun x => x.oem == r.oem) = true := by
      rw [List.any_eq_true]
      obtain ⟨x, hx, hxo⟩ := hdup
      exact ⟨x, hx, by simp [hxo]⟩
    refine ⟨"UNIQUE constraint failed: repuestos.oem", ?_⟩
    rw [if_neg he, if_pos ho]

/-- Witness for C8: inserting a row whose `oem` `"00000001"` already
exists is rejected with an `IntegrityError`. -/
theorem C8_oem_unique_storage_witness :
    ∃ msg, insertRow ⟨[⟨"ABC123", "00000001", "Filtro", 10, 5, none⟩], some 1⟩
        ⟨"NEW", "00000001", "Otro", 7, 1, none⟩ =
      .error (.integrity msg) :=
  C8_oem_unique_storage
    ⟨[⟨"ABC123", "00000001", "Filtro", 10, 5, none⟩], some 1⟩
    ⟨"NEW", "00000001", "Otro", 7, 1, none⟩
    ⟨⟨"ABC123", "00000001", "Filtro", 10, 5, none⟩, by decide, rfl⟩

lemma create_ok_ean_falsy {db : DB} {p : ProductCreate}
    {email apikey : Option String} {net : HttpResult} {db' : DB}
    {out : ProductOut}
    (hfalsy : pyTruthyStr p.ean = false)
    (h : create_product db p email apikey net = .ok (db', out)) :
    out.ean = out.oem := by
  rw [create_product, generate_oem] at h
  cases hseq : db.secuencias with
  | none =>
      rw [hseq] at h
      simp [hfalsy] at h
  | some v =>
      rw [hseq] at h
      simp only [hfalsy, Bool.not_false, if_true] at h
      split at h
      · simp at h
      · rename_i db2 hins
        split at h <;>
        · injection h with h1
          injection h1 with hd ho
          subst ho
          rfl

/-- C9: a create whose caller supplies `primary_code = ""` is handled
exactly as if no `primary_code` was supplied: no duplicate check against
`""` happens, the request takes the generated-code path, and on success
the generated code serves as both `ean` and `oem`. -/
theorem C9_empty_primary_code_as_absent (db : DB) (d : String) (pr : Rat)
    (st : Int) (email apikey : Option String) (net : HttpResult) :
    create_product db ⟨d, pr, st, some ("")⟩ email apikey net =
      create_product db ⟨d, pr, st, none⟩ email apikey net ∧
    (∀ db' out, create_product db ⟨d, pr, st, some ("")⟩ email apikey net
        = .ok (db', out) → out.ean = out.oem) :=
  ⟨rfl, fun _ _ h => create_ok_ean_falsy
    (show pyTruthyStr (⟨d, pr, st, some ("")⟩ : ProductCreate).ean = false
      from rfl) h⟩

/-- Witness for C9: on a fresh database, creating with `ean = ""` gives
the same result as creating with no `ean`, and the returned product uses
the generated code `00000001` for both identifiers. -/
theorem C9_empty_primary_code_as_absent_witness :
    create_product ⟨[], some 0⟩ ⟨"Filtro", 10, 5, some ("")⟩ none none
        (.exn ("down")) =
      create_product ⟨[], some 0⟩ ⟨"Filtro", 10, 5, none⟩ none none
        (.exn ("down")) ∧
    (⟨"00000001", "00000001", "Filtro", 10, 5, none⟩ : ProductOut).ean =
      (⟨"00000001", "00000001", "Filtro", 10, 5, none⟩ : ProductOut).oem :=
  ⟨(C9_empty_primary_code_as_absent ⟨[], some 0⟩ "Filtro" 10 5 none none
      (.exn ("down"))).1,
   (C9_empty_primary_code_as_absent ⟨[], some 0⟩ "Filtro" 10 5 none none
      (.exn ("down"))).2
    ⟨[⟨"00000001", "00000001", "Filtro", 10, 5, none⟩], some 1⟩
    ⟨"00000001", "00000001", "Filtro", 10, 5, none⟩ (by rfl)⟩

/-- C5: a create with a caller-supplied, not-yet-existing `ean` still
consumes a fresh sequence value: the counter advances by one, the
inserted product's `oem` is the freshly generated padded code and its
`ean` is the caller-supplied value. -/
theorem C5_fresh_code_on_supplied_ean (db : DB) (p : ProductCreate)
    (email apikey : Option String) (net : HttpResult) (s : String) (v : Nat)
    (hean : p.ean = some s) (hs : s ≠ "")
    (hnodup : ∀ r ∈ db.repuestos, r.ean ≠ s)
    (hseq : db.secuencias = some v)
    (hoem : ∀ r ∈ db.repuestos, r.oem ≠ zfill (pyStr (v + 1)) 8) :
    ∃ db' out, create_product db p email apikey net = .ok (db', out) ∧
      db'.secuencias = some (v + 1) ∧
      out.oem = zfill (pyStr (v + 1)) 8 ∧ out.ean = s ∧
      ∃ r ∈ db'.repuestos, r.ean = s ∧ r.oem = zfill (pyStr (v + 1)) 8 := by
  have h1 : pyTruthyStr p.ean = true := by
    rw [hean]
    simp [pyTruthyStr, hs]
  have h2 : (db.repuestos.any fun x => x.ean == s) = false := by
    rw [List.any_eq_false]
    intro x hx
    simpa using hnodup x hx
  have h3 : (db.repuestos.any fun x => x.oem == zfill (pyStr (v + 1)) 8)
      = false := by
    rw [List.any_eq_false]
    intro x hx
    simpa using hoem x hx
  rw [create_product]
  dsimp only
  rw [h1, hean]
  simp only [Option.getD_some, Bool.not_true, Bool.false_eq_true, if_false,
    generate_oem, hseq, h2, insertRow, h3]
  by_cases hct : pyTruthyJson (create_product_in_contabilium email apikey net)
      = true
  · rw [if_pos hct]
    refine ⟨_, _, rfl, rfl, rfl, rfl, ?_⟩
    refine ⟨⟨s, zfill (pyStr (v + 1)) 8, p.descripcion, p.precio, p.stock,
      create_product_in_contabilium email apikey net⟩, ?_, rfl, rfl⟩
    rw [List.mem_map]
    refine ⟨⟨s, zfill (pyStr (v + 1)) 8, p.descripcion, p.precio, p.stock,
      none⟩, by simp, by simp⟩
  · rw [if_neg hct]
    refine ⟨_, _, rfl, rfl, rfl, rfl, ?_⟩
    exact ⟨⟨s, zfill (pyStr (v + 1)) 8, p.descripcion, p.precio, p.stock,
      none⟩, by simp, rfl, rfl⟩

/-- Witness for C5: creating `ABC123` on a fresh database consumes the
sequence value 1 and stores `oem = zfill (pyStr 1) 8 = "00000001"`. -/
theorem C5_fresh_code_on_supplied_ean_witness :
    ∃ db' out, create_product ⟨[], some 0⟩ ⟨"Bujia", 3, 7, some ("ABC123")⟩
        none none (.exn ("down")) = .ok (db', out) ∧
      db'.secuencias = some 1 ∧
      out.oem = zfill (pyStr 1) 8 ∧ out.ean = "ABC123" ∧
      ∃ r ∈ db'.repuestos, r.ean = "ABC123" ∧ r.oem = zfill (pyStr 1) 8 :=
  C5_fresh_code_on_supplied_ean ⟨[], some 0⟩ ⟨"Bujia", 3, 7, some ("ABC123")⟩
    none none (.exn ("down")) "ABC123" 0 rfl (by decide) (by simp) rfl (by simp)

lemma create_ok_id_none {db : DB} {p : ProductCreate}
    {email apikey : Option String} {net : HttpResult} {db' : DB}
    {out : ProductOut}
    (hfalsy : pyTruthyJson (create_product_in_contabilium email apikey net)
      = false)
    (hok : create_product db p email apikey net = .ok (db', out)) :
    out.id_contabilium = none ∧
      ∃ rows, db'.repuestos = rows ++
        [⟨out.ean, out.oem, p.descripcion, p.precio, p.stock, none⟩] := by
  rw [create_product] at hok
  dsimp only at hok
  split at hok
  · simp at hok
  · rename_i db1 code ean heq
    split at hok
    · simp at hok
    · rename_i db2 hins
      have hdb2 := insertRow_ok hins
      rw [if_neg (by rw [hfalsy]; simp)] at hok
      injection hok with h1
      injection h1 with hd ho
      subst hd
      subst ho
      subst hdb2
      exact ⟨rfl, db1.repuestos, rfl⟩

/-- C10: when the external ledger's accepted response carries no usable
identifier (missing `"id"` field or a falsy value), the create succeeds
with `external_id = None` and the stored row keeps `id_contabilium`
`NULL` — the same observable outcome as a failed external call. -/
theorem C10_falsy_ledger_id (db : DB) (p : ProductCreate)
    (email apikey : Option String) (net : HttpResult) (db' : DB)
    (out : ProductOut)
    (hfalsy : pyTruthyJson (create_product_in_contabilium email apikey net)
      = false)
    (hok : create_product db p email apikey net = .ok (db', out)) :
    out.id_contabilium = none ∧
      ∃ rows, db'.repuestos = rows ++
        [⟨out.ean, out.oem, p.descripcion, p.precio, p.stock, none⟩] :=
  create_ok_id_none hfalsy hok

/-- Witness for C10: a 200 response whose `"id"` is the falsy value `0`
leaves both the response and the stored row without an external id. -/
theorem C10_falsy_ledger_id_witness :
    (⟨"00000001", "00000001", "Filtro", 10, 5, none⟩ :
        ProductOut).id_contabilium = none ∧
      ∃ rows,
        (⟨[⟨"00000001", "00000001", "Filtro", 10, 5, none⟩], some 1⟩ :
          DB).repuestos = rows ++ [⟨"00000001", "00000001", "Filtro", 10, 5,
            none⟩] :=
  C10_falsy_ledger_id ⟨[], some 0⟩ ⟨"Filtro", 10, 5, none⟩
    (some ("mail")) (some ("key")) (.resp 200 (some (.jnum 0)))
    ⟨[⟨"00000001", "00000001", "Filtro", 10, 5, none⟩], some 1⟩
    ⟨"00000001", "00000001", "Filtro", 10, 5, none⟩
    (by rfl) (by rfl)

lemma create_error_indep {db : DB} {p : ProductCreate}
    {e k : Option String} {n : HttpResult} {err : AppError}
    (h : create_product db p e k n = .error err)
    (e2 k2 : Option String) (n2 : HttpResult) :
    create_product db p e2 k2 n2 = .error err := by
  rw [create_product] at h ⊢
  dsimp only at h ⊢
  split at h
  · exact h
  · split at h
    · exact h
    · split at h <;> simp at h

lemma create_ok_indep {db : DB} {p : ProductCreate}
    {e k : Option String} {n : HttpResult} {db' : DB} {out : ProductOut}
    (h : create_product db p e k n = .ok (db', out))
    (e2 k2 : Option String) (n2 : HttpResult) :
    ∃ dbb outb, create_product db p e2 k2 n2 = .ok (dbb, outb) := by
  rw [create_product] at h ⊢
  dsimp only at h ⊢
  split at h
  · simp at h
  · split at h
    · simp at h
    · by_cases hct : pyTruthyJson (create_product_in_contabilium e2 k2 n2)
          = true
      · rw [if_pos hct]
        exact ⟨_, _, rfl⟩
      · rw [if_neg hct]
        exact ⟨_, _, rfl⟩

/-- C4: external-ledger behaviour never decides a request.  A create's
success or failure is independent of credentials and of the network
outcome; an update's result is entirely unchanged by them; the ledger
client returns `None` on a raised network error, on missing credentials
and on a non-2xx response instead of raising; and a create whose sync
returned `None` still succeeds with `external_id = None`. -/
theorem C4_ledger_failures_never_fail (db : DB) (p : ProductCreate)
    (ean : String) (u : ProductUpdate) (e k e2 k2 : Option String)
    (n n2 : HttpResult) :
    (create_product db p e k n).isOk = (create_product db p e2 k2 n2).isOk ∧
    update_product db ean u e k n = update_product db ean u e2 k2 n2 ∧
    (∀ msg, create_product_in_contabilium e k (.exn msg) = none) ∧
    (pyTruthyStr e = false →
      ∀ net, create_product_in_contabilium e k net = none) ∧
    (∀ status idf, ¬(200 ≤ status ∧ status < 300) →
      create_product_in_contabilium e k (.resp status idf) = none) ∧
    (∀ db' out, create_product db p e k n = .ok (db', out) →
      create_product_in_contabilium e k n = none →
      out.id_contabilium = none) := by
  refine ⟨?_, rfl, ?_, ?_, ?_, ?_⟩
  · cases hr : create_product db p e k n with
    | error err => rw [create_error_indep hr e2 k2 n2]
    | ok pr =>
        obtain ⟨db', out⟩ := pr
        obtain ⟨dbb, outb, hb⟩ := create_ok_indep hr e2 k2 n2
        rw [hb]
        rfl
  · intro msg
    rw [create_product_in_contabilium]
    split <;> rfl
  · intro hfalsy net
    simp [create_product_in_contabilium, hfalsy]
  · intro status idf hst
    simp [create_product_in_contabilium, hst]
  · intro db' out hok hnone
    exact (create_ok_id_none (by rw [hnone]; rfl) hok).1

/-- Witness for C4 at concrete inputs: a failed-network create and a
successful-sync create have equal success status; updates are unchanged
by the environment; the ledger client yields `None` on an exception, on
missing credentials and on a 500; and the failed-sync create returns
`external_id = None`. -/
theorem C4_ledger_failures_never_fail_witness :
    (create_product ⟨[], some 0⟩ ⟨"Filtro", 10, 5, none⟩ none none
        (.exn ("down"))).isOk =
      (create_product ⟨[], some 0⟩ ⟨"Filtro", 10, 5, none⟩ (some ("mail"))
        (some ("key")) (.resp 200 (some (.jstr ("id9"))))).isOk ∧
    update_product ⟨[], some 0⟩ "Q" ⟨none, none, none⟩ none none
        (.exn ("down")) =
      update_product ⟨[], some 0⟩ "Q" ⟨none, none, none⟩ (some ("mail"))
        (some ("key")) (.resp 200 (some (.jstr ("id9")))) ∧
    create_product_in_contabilium none none (.exn ("boom")) = none ∧
    create_product_in_contabilium none none
        (.resp 200 (some (.jstr ("id9")))) = none ∧
    create_product_in_contabilium none none (.resp 500 none) = none ∧
    (⟨"00000001", "00000001", "Filtro", 10, 5, none⟩ :
        ProductOut).id_contabilium = none := by
  have h := C4_ledger_failures_never_fail ⟨[], some 0⟩
    ⟨"Filtro", 10, 5, none⟩ "Q" ⟨none, none, none⟩ none none
    (some ("mail")) (some ("key")) (.exn ("down"))
    (.resp 200 (some (.jstr ("id9"))))
  exact ⟨h.1, h.2.1, h.2.2.1 "boom",
    h.2.2.2.1 rfl (.resp 200 (some (.jstr ("id9")))),
    h.2.2.2.2.1 500 none (by omega),
    h.2.2.2.2.2 ⟨[⟨"00000001", "00000001", "Filtro", 10, 5, none⟩], some 1⟩
      ⟨"00000001", "00000001", "Filtro", 10, 5, none⟩ rfl rfl⟩

end RepuestosApp
